import Mathlib

/-!
Verification of the webpage-analyzer repository (Go) against its
natural-language specification.

The definitions below are a shallow embedding of the Go source:

* services/link-checker/core/concurrent_checker.go
  (ConcurrentLinkChecker: CheckLinks, CheckLink, Start, Stop, worker);
* the HTML analysis core (HTMLParser: DetectHTMLVersion, determineLinkType,
  isLoginForm);
* services/analyzer/core/analyzer.go (fetchWebPage) and
  services/analyzer/handlers/analyzer_handler.go (Analyze error mapping).

Machine integers are modelled as Int (Go int); timestamps as Nat;
Go errors as Except String; Go maps as functions to Option.
-/

namespace WebpageAnalyzer

/-! ## String helpers

Go uses strings.ToLower, strings.Contains and strings.HasPrefix-style
byte slicing.  They are embedded here over the character list backing a
Lean String.  Lowercasing is the ASCII case map, which coincides with
Go's Unicode case map on all the ASCII-only keyword constants the
program compares against. -/

/-- ASCII lowercasing of one character (the fragment of strings.ToLower
exercised by the program's keyword comparisons). -/
def lowerChar (c : Char) : Char :=
  if 'A' ≤ c ∧ c ≤ 'Z' then Char.ofNat (c.toNat + 32) else c

/-- Lowercasing of a string, character by character. -/
def lowerStr (s : String) : String := ⟨s.data.map lowerChar⟩

/-- Decides whether the first list is a prefix of the second
(exact character equality). -/
def isPrefixList : List Char → List Char → Bool
  | [], _ => true
  | _ :: _, [] => false
  | a :: as, b :: bs => a = b && isPrefixList as bs

/-- Embedding of Go strings.Contains: does the needle occur anywhere in
the haystack? -/
def containsSub (needle : List Char) : List Char → Bool
  | [] => needle.isEmpty
  | c :: rest => isPrefixList needle (c :: rest) || containsSub needle rest

/-- Embedding of the analyzer handler's contains helper
(analyzer_handler.go lines 112-114): despite its name it tests
whether substr is a PREFIX of s, via byte slicing
s[:len(substr)] == substr. -/
def goContains (s substr : String) : Bool :=
  substr.data.length ≤ s.data.length &&
    decide (s.data.take substr.data.length = substr.data)

/-! ## Data model (pkg/models/models.go) -/

/-- Embedding of models.LinkType (a Go string enum). -/
inductive LinkType where
  | internal
  | external
  | unknown
deriving DecidableEq, Repr

/-- Embedding of models.Link. -/
structure Link where
  url : String
  text : String
  type : LinkType
deriving DecidableEq, Repr

/-- Embedding of models.LinkStatus; CheckedAt is an abstract timestamp. -/
structure LinkStatus where
  link : Link
  accessible : Bool
  statusCode : Int
  error : String
  checkedAt : Nat
deriving DecidableEq, Repr

/-- Embedding of models.HTTPResponse (only the status code matters to the
functions under study; Body and Headers are consumed elsewhere). -/
structure HTTPResponse where
  statusCode : Int
deriving DecidableEq, Repr

/-! ## CheckLink (concurrent_checker.go lines 177-213)

The HTTP call c.httpClient.Get is the single effectful step; it is
passed in as its outcome, an Except value, so CheckLink becomes the pure
mapping from that outcome to a LinkStatus. -/

/-- Embedding of ConcurrentLinkChecker.CheckLink: builds the LinkStatus
from the outcome of the HTTP GET.  On error the zero-valued fields
(Accessible=false, StatusCode=0) survive and Error carries the message;
on success Accessible is exactly 200 <= code < 400, and Error is set to
"HTTP <code>" only when not accessible. -/
def checkLink (l : Link) (fetchResult : Except String HTTPResponse) (now : Nat) :
    LinkStatus :=
  match fetchResult with
  | .error e =>
      { link := l, accessible := false, statusCode := 0, error := e, checkedAt := now }
  | .ok resp =>
      let accessible : Bool := decide (200 ≤ resp.statusCode ∧ resp.statusCode < 400)
      { link := l
        accessible := accessible
        statusCode := resp.statusCode
        error := if accessible then "" else "HTTP " ++ toString resp.statusCode
        checkedAt := now }

/-! ## CheckLinks result collection (concurrent_checker.go lines 82-174)

The collector goroutine (lines 102-109) folds every status read from the
result channel into a map keyed by status.Link.URL; the materialization
loop (lines 148-164) then walks the original input order and takes the
mapped status, or synthesizes a "Not checked" record when the map has no
entry.  The submission path (lines 125-134) synthesizes a
"Check timeout" record when the batch context is cancelled before the
job could be queued.  The map is modelled as a function to Option, with
Go map assignment as pointwise update. -/

/-- Empty Go map. -/
def emptyResultMap : String → Option LinkStatus := fun _ => none

/-- Go map assignment resultMap[key] = status (line 106). -/
def mapInsert (m : String → Option LinkStatus) (k : String) (v : LinkStatus) :
    String → Option LinkStatus :=
  fun k' => if k' = k then some v else m k'

/-- Embedding of the collector loop (lines 102-109): every status
observed on the result channel is stored under its own Link.URL. -/
def collectResults (observed : List LinkStatus) : String → Option LinkStatus :=
  observed.foldl (fun m s => mapInsert m s.link.url s) emptyResultMap

/-- Status synthesized on the submission path when the batch context is
cancelled before the job is queued (lines 127-133). -/
def submitTimeoutStatus (l : Link) (now : Nat) : LinkStatus :=
  { link := l, accessible := false, statusCode := 0
    error := "Check timeout", checkedAt := now }

/-- Status synthesized by the materialization loop when the map holds no
entry for the link (lines 155-161). -/
def notCheckedStatus (l : Link) (now : Nat) : LinkStatus :=
  { link := l, accessible := false, statusCode := 0
    error := "Not checked", checkedAt := now }

/-- One step of the materialization loop (lines 150-163). -/
def materializeOne (m : String → Option LinkStatus) (now : Nat) (l : Link) :
    LinkStatus :=
  match m l.url with
  | some s => s
  | none => notCheckedStatus l now

/-- Embedding of the materialization loop (lines 148-164): walk the
original input order, copying the observed status or synthesizing. -/
def materializeResults (links : List Link) (m : String → Option LinkStatus)
    (now : Nat) : List LinkStatus :=
  links.map (materializeOne m now)

/-- Embedding of the value CheckLinks returns, as a function of the
statuses the collector observed: the empty-input early return (lines
83-85) followed by collection and materialization. -/
def checkLinksResult (links : List Link) (observed : List LinkStatus) (now : Nat) :
    List LinkStatus :=
  if links.isEmpty then []
  else materializeResults links (collectResults observed) now

/-! ## Channel-lifetime model of the checker (concurrent_checker.go)

ConcurrentLinkChecker owns three long-lived channels created by
NewConcurrentLinkChecker (lines 45-47): jobQueue, resultQueue and
stopChan.  Go channel semantics: a range loop over a channel terminates
only once the channel has been closed (and drained).  Scanning the
source, close(c.resultQueue) occurs exactly once, in Stop (line 76);
CheckLinks itself closes nothing.  The model below records, per
channel, whether it has been closed, and maps each channel-affecting
program action onto that state. -/

/-- Closed-flags of the three long-lived channels of a
ConcurrentLinkChecker. -/
structure ChanState where
  stopClosed : Bool
  jobClosed : Bool
  resultClosed : Bool
deriving DecidableEq, Repr

/-- Channel state created by NewConcurrentLinkChecker (lines 45-47):
all three channels open. -/
def newCheckerChans : ChanState := ⟨false, false, false⟩

/-- Channel-affecting actions of the checker, one per site in the
source that touches a long-lived channel. -/
inductive CheckerEvent where
  /-- Start (lines 52-60): spawns workers, closes nothing. -/
  | startPool
  /-- Job submission in CheckLinks (line 123): send on jobQueue. -/
  | submitJob
  /-- Timeout synthesis in CheckLinks (line 127): send on resultQueue. -/
  | synthTimeout
  /-- Result emission in worker (line 240): send on resultQueue. -/
  | workerResult
  /-- Stop (lines 63-79): closes stopChan, jobQueue and resultQueue. -/
  | stopChecker
deriving DecidableEq, Repr

/-- Effect of each action on the closed-flags: only Stop closes
channels; sends and Start leave them open. -/
def applyEvent (s : ChanState) : CheckerEvent → ChanState
  | .stopChecker => { stopClosed := true, jobClosed := true, resultClosed := true }
  | _ => s

/-- Runs a sequence of channel-affecting actions. -/
def runEvents (s : ChanState) (es : List CheckerEvent) : ChanState :=
  es.foldl applyEvent s

/-- Go range-over-channel semantics: the collector loop of CheckLinks
(lines 102-109) can finish only when resultQueue has been closed, and
hence resultWG.Wait() (line 146) can return only then. -/
def collectorCanFinish (s : ChanState) : Bool := s.resultClosed

/-! ## Worker pool model (Start, worker: concurrent_checker.go lines
52-60 and 216-248)

Start spawns exactly workerPoolSize worker goroutines.  Each worker is
a loop that is either waiting in its select (idle), executing one
CheckLink probe (probing), or returned (terminated); a worker starts a
new probe only after the previous one finished, and only by taking one
job from the queue.  Probes on behalf of a batch happen nowhere else in
the checker.  The model is the induced transition system; actions
carrying an out-of-range index or violating a guard leave the state
unchanged. -/

/-- Phase of one worker goroutine (the worker state machine). -/
inductive WorkerPhase where
  | idle
  | probing
  | terminated
deriving DecidableEq, Repr

/-- Pool state: the phases of the spawned workers plus the number of
queued, not yet taken jobs. -/
structure PoolState where
  workers : List WorkerPhase
  pendingJobs : Nat
deriving DecidableEq, Repr

/-- Pool state right after Start (lines 56-59): w idle workers, no
queued jobs. -/
def startPool (w : Nat) : PoolState := ⟨List.replicate w .idle, 0⟩

/-- Scheduler actions on the pool. -/
inductive PoolAction where
  /-- CheckLinks queues one job (line 123). -/
  | enqueueJob
  /-- Worker i takes a job from the queue and begins its probe
  (lines 229-236). -/
  | beginProbe (i : Nat)
  /-- Worker i finishes its probe and emits the result (lines 236-245). -/
  | finishProbe (i : Nat)
  /-- Worker i observes ctx.Done, stopChan or a closed queue while idle
  and returns (lines 222-233). -/
  | stopWorker (i : Nat)
deriving DecidableEq, Repr

/-- One scheduler step.  A probe can begin only on an idle worker with a
job available; it ends on that worker; a worker leaves its loop only
from the idle select. -/
def poolStep (s : PoolState) : PoolAction → PoolState
  | .enqueueJob => { s with pendingJobs := s.pendingJobs + 1 }
  | .beginProbe i =>
      if h : i < s.workers.length then
        if s.workers.get ⟨i, h⟩ = .idle ∧ 0 < s.pendingJobs then
          ⟨s.workers.set i .probing, s.pendingJobs - 1⟩
        else s
      else s
  | .finishProbe i =>
      if h : i < s.workers.length then
        if s.workers.get ⟨i, h⟩ = .probing then
          ⟨s.workers.set i .idle, s.pendingJobs⟩
        else s
      else s
  | .stopWorker i =>
      if h : i < s.workers.length then
        if s.workers.get ⟨i, h⟩ = .idle then
          ⟨s.workers.set i .terminated, s.pendingJobs⟩
        else s
      else s

/-- Number of pool probes in flight: pool workers currently in their
CheckLink call. -/
def inFlight (s : PoolState) : Nat :=
  s.workers.countP (fun p => p = .probing)

/-- Embedding of defaultWorkerPoolSize (link-checker main.go line 28). -/
def defaultWorkerPoolSize : Nat := 10

/-! ## Process-wide probe model

The pool is not the only probe site of the process: the single-link
HTTP endpoint (route /check-single, link-checker main.go line 76) runs
LinkHandler.CheckSingleLink, which calls c.CheckLink directly on the
handler goroutine (link_handler.go line 123), outside the worker pool
and without any counting semaphore.  The system model therefore pairs
the pool with the number of handler goroutines currently inside such a
direct CheckLink call; nothing in the source bounds that number. -/

/-- State of all probe sites of the process: the pool plus the
handler goroutines currently inside a direct CheckLink call. -/
structure SystemState where
  pool : PoolState
  handlerProbes : Nat
deriving DecidableEq, Repr

/-- System right after Start: the pool is up, no single-link request is
in flight. -/
def startSystem (w : Nat) : SystemState := ⟨startPool w, 0⟩

/-- Scheduler actions of the whole process. -/
inductive SystemAction where
  /-- A pool-internal step. -/
  | poolAct (a : PoolAction)
  /-- A CheckSingleLink handler enters its direct CheckLink call
  (link_handler.go line 123). -/
  | beginSingleProbe
  /-- That direct CheckLink call returns. -/
  | finishSingleProbe
deriving DecidableEq, Repr

/-- One step of the whole process. -/
def systemStep (s : SystemState) : SystemAction → SystemState
  | .poolAct a => { s with pool := poolStep s.pool a }
  | .beginSingleProbe => { s with handlerProbes := s.handlerProbes + 1 }
  | .finishSingleProbe => { s with handlerProbes := s.handlerProbes - 1 }

/-- Runs a sequence of process scheduler actions. -/
def runSystem (s : SystemState) (as : List SystemAction) : SystemState :=
  as.foldl systemStep s

/-- Process-wide probes in flight: pool probes plus direct
single-link probes. -/
def processWideInFlight (s : SystemState) : Nat :=
  inFlight s.pool + s.handlerProbes

/-! ## Start/Stop lifecycle (concurrent_checker.go lines 15-26, 52-79)

The struct has no started flag and no lifecycle mutex (lines 15-26).
Start unconditionally spawns workerPoolSize more workers (lines 56-59).
Stop unconditionally runs close(stopChan); close(jobQueue);
workerWG.Wait(); close(resultQueue) (lines 67-76).  Go's close on an
already-closed channel aborts the program with the runtime error
"close of closed channel"; that abort is modelled as Except.error. -/

/-- Go close(ch): returns the new closed-flag, or aborts when the
channel is already closed. -/
def closeChan (closed : Bool) : Except String Bool :=
  if closed then .error "close of closed channel" else .ok true

/-- Lifecycle-relevant state of the checker: channel flags plus the
number of worker goroutines spawned so far. -/
structure LifecycleState where
  chans : ChanState
  workersSpawned : Nat
deriving DecidableEq, Repr

/-- State produced by NewConcurrentLinkChecker: open channels, no
workers yet. -/
def newCheckerLifecycle : LifecycleState := ⟨newCheckerChans, 0⟩

/-- Embedding of Start (lines 52-60) with pool size w: spawns w more
workers, unconditionally - there is no started flag to consult. -/
def goStart (w : Nat) (s : LifecycleState) : LifecycleState :=
  { s with workersSpawned := s.workersSpawned + w }

/-- Embedding of Stop (lines 63-79): close stopChan, close jobQueue,
join workers, close resultQueue - each close aborting when the channel
is already closed. -/
def goStop (s : LifecycleState) : Except String LifecycleState := do
  let sc ← closeChan s.chans.stopClosed
  let jc ← closeChan s.chans.jobClosed
  let rc ← closeChan s.chans.resultClosed
  .ok { s with chans := ⟨sc, jc, rc⟩ }

/-! ## HTML node model (golang.org/x/net/html Node, as used by the
Walker in the HTML analysis core)

An x/net/html Node carries Type, Data (tag name for elements, content
for text), Attr, FirstChild and NextSibling.  The embedding mirrors
that first-child / next-sibling shape, restricted to the node kinds the
inspected functions distinguish. -/

/-- Node kinds the walker distinguishes (html.ElementNode,
html.TextNode, and the rest). -/
inductive GoNodeType where
  | elementNode
  | textNode
  | otherNode
deriving DecidableEq, Repr

/-- First-child / next-sibling tree of x/net/html nodes; nilNode is the
nil pointer ending a sibling chain. -/
inductive HtmlNode where
  | nilNode : HtmlNode
  | node (ntype : GoNodeType) (data : String) (attrs : List (String × String))
      (firstChild : HtmlNode) (nextSibling : HtmlNode) : HtmlNode
deriving DecidableEq, Repr

/-- First attribute with the given key (the attribute loops that break
on the first hit, e.g. the action lookup in isLoginForm lines
298-303). -/
def attrFirst (attrs : List (String × String)) (key : String) : Option String :=
  match attrs with
  | [] => none
  | (k, v) :: rest => if k = key then some v else attrFirst rest key

/-- Resolution of the type attribute of an input element per the loop
at isLoginForm lines 318-325: no break, so a later occurrence
overwrites an earlier one, lowercased; empty when absent. -/
def inputTypeOf (attrs : List (String × String)) : String :=
  attrs.foldl (fun acc kv => if kv.1 = "type" then lowerStr kv.2 else acc) ""

/-- Resolution of the name attribute of an input element, same loop. -/
def inputNameOf (attrs : List (String × String)) : String :=
  attrs.foldl (fun acc kv => if kv.1 = "name" then lowerStr kv.2 else acc) ""

/-- Keywords looked for in a form action (isLoginForm line 305). -/
def loginKeywords : List String :=
  ["login", "signin", "sign-in", "authenticate", "auth"]

/-- Keywords looked for in an input name (isLoginForm line 331). -/
def usernameKeywords : List String :=
  ["username", "user", "email", "login", "uid"]

/-- Check applied by checkInputs to one node (isLoginForm lines
314-338): is it an input element, and does it set hasPasswordInput
respectively hasUsernameInput? -/
def inputFlags (n : HtmlNode) : Bool × Bool :=
  match n with
  | .nilNode => (false, false)
  | .node ntype data attrs _ _ =>
      if ntype = .elementNode ∧ data = "input" then
        (inputTypeOf attrs = "password",
         usernameKeywords.any (fun k => containsSub k.data (inputNameOf attrs).data))
      else (false, false)

/-- Accumulation of the two checkInputs flags over a node, its
descendants AND its following siblings (the chain reached through
firstChild and nextSibling). -/
def inputFlagsChain : HtmlNode → Bool × Bool
  | .nilNode => (false, false)
  | .node ntype data attrs child next =>
      let self := inputFlags (.node ntype data attrs child next)
      let c := inputFlagsChain child
      let r := inputFlagsChain next
      (self.1 || c.1 || r.1, self.2 || c.2 || r.2)

/-- Embedding of the recursive closure checkInputs of isLoginForm
(lines 312-345) applied to the form node: the node itself and its
subtree, but not its siblings.  The Go recursion visits n then loops
over n's children; each child's visit covers that child's chain, so
the union over the loop is exactly inputFlagsChain of the first
child. -/
def checkInputs (n : HtmlNode) : Bool × Bool :=
  match n with
  | .nilNode => (false, false)
  | .node ntype data attrs child next =>
      let self := inputFlags (.node ntype data attrs child next)
      let c := inputFlagsChain child
      (self.1 || c.1, self.2 || c.2)

/-- Form action of a node per isLoginForm lines 296-303: first action
attribute, lowercased; empty when absent. -/
def formActionOf (n : HtmlNode) : String :=
  match n with
  | .nilNode => ""
  | .node _ _ attrs _ _ =>
      match attrFirst attrs "action" with
      | some v => lowerStr v
      | none => ""

/-- Embedding of HTMLParser.isLoginForm (lines 293-348): the action
keyword scan, then hasPasswordInput AND (hasUsernameInput OR a
non-empty action). -/
def isLoginForm (n : HtmlNode) : Bool :=
  let formAction := formActionOf n
  if loginKeywords.any (fun k => containsSub k.data formAction.data) then true
  else
    let flags := checkInputs n
    flags.1 && (flags.2 || !(formAction = ""))

/-! ## Link classification (HTMLParser.determineLinkType, lines
285-290) -/

/-- Fragment of Go's url.URL consumed by determineLinkType.  Go's
net/url Parse and ResolveReference preserve the case of the host, so
the Host fields carry the hosts as written. -/
structure GoURL where
  host : String
deriving DecidableEq, Repr

/-- Embedding of HTMLParser.determineLinkType: internal iff the host is
empty or EXACTLY equal (case-sensitive string equality) to the base
host. -/
def determineLinkType (linkURL baseURL : GoURL) : LinkType :=
  if linkURL.host = "" ∨ linkURL.host = baseURL.host then .internal
  else .external

/-! ## DOCTYPE detection (HTMLParser.DetectHTMLVersion, lines 70-149)

The gzip decompression and charset decoding of the preamble (lines
71-90) delegate to external libraries; the decision logic on the
decoded string (lines 92-148) is embedded below.  The regular
expressions of the source are linear alternation-free patterns built
from case-insensitive literals and the whitespace classes of RE2
([\t\n\f\r ]); each such regex is embedded as its token list.  Every
occurrence of a greedy whitespace token in these patterns is followed
by a token starting with a non-whitespace character, so greedy
consumption is equivalent to the regex semantics. -/

/-- RE2 whitespace class backslash-s = tab, newline, form feed,
carriage return, space. -/
def isSpaceRE (c : Char) : Bool :=
  c = ' ' ∨ c = '\t' ∨ c = '\n' ∨ c = '\x0c' ∨ c = '\r'

/-- Tokens of the DOCTYPE regexes: a case-insensitive literal, one or
more whitespace, zero or more whitespace. -/
inductive PatTok where
  | lit (s : String)
  | ws1
  | ws0
deriving DecidableEq, Repr

/-- Case-insensitive prefix test for a pattern literal. -/
def ciPrefix : List Char → List Char → Bool
  | [], _ => true
  | _ :: _, [] => false
  | a :: as, b :: bs => lowerChar a = lowerChar b && ciPrefix as bs

/-- Matches a token list at the start of the input. -/
def matchToks : List PatTok → List Char → Bool
  | [], _ => true
  | .lit s :: rest, cs =>
      ciPrefix s.data cs && matchToks rest (cs.drop s.data.length)
  | .ws1 :: rest, cs =>
      let n := (cs.takeWhile isSpaceRE).length
      0 < n && matchToks rest (cs.drop n)
  | .ws0 :: rest, cs =>
      matchToks rest (cs.drop (cs.takeWhile isSpaceRE).length)

/-- Unanchored regex search: a match starting at some position. -/
def searchToks (toks : List PatTok) : List Char → Bool
  | [] => matchToks toks []
  | c :: rest => matchToks toks (c :: rest) || searchToks toks rest

/-- Anchored pattern of line 100: leading whitespace, then a full
doctype-html declaration. -/
def patHTML5Anchored : List PatTok :=
  [.ws0, .lit "<!doctype", .ws1, .lit "html", .ws0, .lit ">"]

/-- Pattern of line 105. -/
def patHTML5 : List PatTok := [.lit "<!doctype", .ws1, .lit "html>"]

/-- Pattern of line 110 (XHTML 1.1 public identifier). -/
def patXHTML11 : List PatTok :=
  [.lit "<!doctype", .ws1, .lit "html", .ws1, .lit "public", .ws1,
   .lit "\"-//w3c//dtd", .ws1, .lit "xhtml", .ws1, .lit "1.1//en\""]

/-- Pattern of line 115 (XHTML 1.0 public identifier prefix). -/
def patXHTML10 : List PatTok :=
  [.lit "<!doctype", .ws1, .lit "html", .ws1, .lit "public", .ws1,
   .lit "\"-//w3c//dtd", .ws1, .lit "xhtml", .ws1, .lit "1.0"]

/-- Pattern of line 127 (HTML 4.01 public identifier prefix). -/
def patHTML401 : List PatTok :=
  [.lit "<!doctype", .ws1, .lit "html", .ws1, .lit "public", .ws1,
   .lit "\"-//w3c//dtd", .ws1, .lit "html", .ws1, .lit "4.01"]

/-- Pattern of line 139 (HTML 3.2 public identifier prefix). -/
def patHTML32 : List PatTok :=
  [.lit "<!doctype", .ws1, .lit "html", .ws1, .lit "public", .ws1,
   .lit "\"-//w3c//dtd", .ws1, .lit "html", .ws1, .lit "3.2"]

/-- Pattern of line 144 (HTML 2.0 public identifier prefix). -/
def patHTML20 : List PatTok :=
  [.lit "<!doctype", .ws1, .lit "html", .ws1, .lit "public", .ws1,
   .lit "\"-//ietf//dtd", .ws1, .lit "html", .ws1, .lit "2.0"]

/-- Embedding of isValidHTML (lines 61-67): the lowercased content
contains one of the four marker substrings. -/
def isValidHTML (content : String) : Bool :=
  let lc := (lowerStr content).data
  containsSub "<html".data lc || containsSub "<!doctype".data lc ||
    containsSub "<head".data lc || containsSub "<body".data lc

/-- Embedding of the decision logic of DetectHTMLVersion (lines
92-148) on the decoded document string. -/
def detectHTMLVersion (htmlStr : String) : String :=
  if !isValidHTML htmlStr then "Unknown (Not HTML)"
  else if matchToks patHTML5Anchored htmlStr.data then "HTML5"
  else if searchToks patHTML5 htmlStr.data then "HTML5"
  else if searchToks patXHTML11 htmlStr.data then "XHTML 1.1"
  else if searchToks patXHTML10 htmlStr.data then
    if containsSub "Strict".data htmlStr.data then "XHTML 1.0 Strict"
    else if containsSub "Transitional".data htmlStr.data then "XHTML 1.0 Transitional"
    else if containsSub "Frameset".data htmlStr.data then "XHTML 1.0 Frameset"
    else "XHTML 1.0"
  else if searchToks patHTML401 htmlStr.data then
    if containsSub "Strict".data htmlStr.data then "HTML 4.01 Strict"
    else if containsSub "Transitional".data htmlStr.data then "HTML 4.01 Transitional"
    else if containsSub "Frameset".data htmlStr.data then "HTML 4.01 Frameset"
    else "HTML 4.01"
  else if searchToks patHTML32 htmlStr.data then "HTML 3.2"
  else if searchToks patHTML20 htmlStr.data then "HTML 2.0"
  else "Unknown/No DOCTYPE Test"

/-! ## Root fetch and handler error mapping (analyzer.go lines 99-110,
analyzer_handler.go lines 28-93) -/

/-- Embedding of Analyzer.fetchWebPage: wraps a transport failure, and
turns a status of 400 or above into the error
"HTTP error: status code <code>". -/
def fetchWebPage (fetch : Except String HTTPResponse) : Except String HTTPResponse :=
  match fetch with
  | .error e => .error ("failed to fetch URL: " ++ e)
  | .ok resp =>
      if 400 ≤ resp.statusCode then
        .error ("HTTP error: status code " ++ toString resp.statusCode)
      else .ok resp

/-- Outcome of the fetch phase of AnalyzeURL (analyzer.go lines 46-51):
a fetch error is returned as-is with a nil result, otherwise the
analysis continues with the response. -/
inductive AnalyzeFetchOutcome where
  | continueWith (resp : HTTPResponse)
  | failure (msg : String)
deriving DecidableEq, Repr

/-- Embedding of the fetch phase of AnalyzeURL. -/
def analyzeURLOnFetch (fetch : Except String HTTPResponse) : AnalyzeFetchOutcome :=
  match fetchWebPage fetch with
  | .error e => .failure e
  | .ok resp => .continueWith resp

/-- Error reply line sent by the handler: message and HTTP status. -/
structure ErrorHTTPReply where
  message : String
  status : Nat
deriving DecidableEq, Repr

/-- Embedding of the error mapping of AnalyzerHandler.Analyze (lines
61-74): 504 for a deadline message, 400 when the message begins with
"HTTP error" (goContains is a prefix test), 500 otherwise. -/
def analyzeFailureReply (errMsg : String) : ErrorHTTPReply :=
  if errMsg = "context deadline exceeded" then ⟨"Analysis timeout", 504⟩
  else if goContains errMsg "HTTP error" then ⟨errMsg, 400⟩
  else ⟨"Failed to analyze URL", 500⟩

/-! ## Spec-side comparison definitions

For the refinement-style claims, the following definitions restate the
specification's words, to be compared against the embeddings above. -/

/-- Lists a node together with everything reachable through firstChild
and nextSibling. -/
def chainNodes : HtmlNode → List HtmlNode
  | .nilNode => []
  | .node t d a c nx => .node t d a c nx :: (chainNodes c ++ chainNodes nx)

/-- Lists a node and its descendants (its subtree, without its
siblings). -/
def subtreeNodes : HtmlNode → List HtmlNode
  | .nilNode => []
  | .node t d a c nx => .node t d a c nx :: chainNodes c

/-- Is this node an input element whose resolved type attribute is
password? -/
def isPasswordInputNode (n : HtmlNode) : Bool :=
  match n with
  | .nilNode => false
  | .node ntype data attrs _ _ =>
      ntype = .elementNode && data = "input" && (inputTypeOf attrs = "password")

/-- Is this node an input element whose resolved lowercased name
contains a username keyword? -/
def isUsernameKeywordInputNode (n : HtmlNode) : Bool :=
  match n with
  | .nilNode => false
  | .node ntype data attrs _ _ =>
      ntype = .elementNode && data = "input" &&
        usernameKeywords.any (fun k => containsSub k.data (inputNameOf attrs).data)

/-- Does the form's lowercased action contain a login keyword? -/
def actionHasLoginKeyword (n : HtmlNode) : Bool :=
  loginKeywords.any (fun k => containsSub k.data (formActionOf n).data)

/-- Login-form flag as the specification words it: the action contains
a login keyword, or the form contains a password input and an input
with a username keyword in its name. -/
def claimLoginForm (n : HtmlNode) : Bool :=
  actionHasLoginKeyword n ||
    ((subtreeNodes n).any isPasswordInputNode &&
      (subtreeNodes n).any isUsernameKeywordInputNode)

/-- Login-form flag amended to what the code computes, in spec style:
the password branch also fires when the action attribute is non-empty
even without a username-keyword input. -/
def amendedLoginForm (n : HtmlNode) : Bool :=
  actionHasLoginKeyword n ||
    ((subtreeNodes n).any isPasswordInputNode &&
      ((subtreeNodes n).any isUsernameKeywordInputNode || !(formActionOf n = "")))

/-- Internal-link test as the specification words it: resolved host
empty or case-insensitively equal to the base host. -/
def claimInternal (linkURL baseURL : GoURL) : Bool :=
  linkURL.host = "" || lowerStr linkURL.host = lowerStr baseURL.host

/-! ## Helper lemmas -/

/-- Every value stored in a map built by self-keyed inserts sits under
its own Link.URL. -/
theorem collectFold_wf (obs : List LinkStatus) (m : String → Option LinkStatus)
    (hm : ∀ k s, m k = some s → s.link.url = k) :
    ∀ k s, (obs.foldl (fun m s => mapInsert m s.link.url s) m) k = some s →
      s.link.url = k := by
  induction obs generalizing m with
  | nil => exact hm
  | cons a rest ih =>
      intro k s h
      refine ih (mapInsert m a.link.url a) ?_ k s h
      intro k' s' h'
      by_cases hk : k' = a.link.url
      · rw [mapInsert, if_pos hk] at h'
        cases h'
        exact hk.symm
      · rw [mapInsert, if_neg hk] at h'
        exact hm k' s' h'

/-- The collector map is well-formed: each collected status sits under
its own URL. -/
theorem collectResults_wf (obs : List LinkStatus) :
    ∀ k s, collectResults obs k = some s → s.link.url = k := by
  refine collectFold_wf obs emptyResultMap ?_
  intro k s h
  cases h

/-- Materializing one link yields a status carrying that link's URL. -/
theorem materializeOne_url (m : String → Option LinkStatus)
    (hm : ∀ k s, m k = some s → s.link.url = k) (now : Nat) (l : Link) :
    (materializeOne m now l).link.url = l.url := by
  unfold materializeOne
  cases h : m l.url with
  | none => rfl
  | some s => exact hm l.url s h

/-- Only Stop changes the channel flags; any stop-free run leaves
resultQueue open. -/
theorem runEvents_resultClosed_of_no_stop (s : ChanState) (es : List CheckerEvent)
    (h : ∀ e ∈ es, e ≠ CheckerEvent.stopChecker) :
    (runEvents s es).resultClosed = s.resultClosed := by
  induction es generalizing s with
  | nil => rfl
  | cons e rest ih =>
      have he : e ≠ CheckerEvent.stopChecker := h e (by simp)
      have hrest : ∀ e' ∈ rest, e' ≠ CheckerEvent.stopChecker := by
        intro e' he'
        exact h e' (by simp [he'])
      have happ : applyEvent s e = s := by
        cases e with
        | stopChecker => exact absurd rfl he
        | startPool => rfl
        | submitJob => rfl
        | synthTimeout => rfl
        | workerResult => rfl
      calc (runEvents s (e :: rest)).resultClosed
          = (runEvents (applyEvent s e) rest).resultClosed := rfl
        _ = (applyEvent s e).resultClosed := ih (applyEvent s e) hrest
        _ = s.resultClosed := by rw [happ]

/-- Every scheduler step preserves the number of workers in the pool. -/
theorem poolStep_length (s : PoolState) (a : PoolAction) :
    (poolStep s a).workers.length = s.workers.length := by
  cases a with
  | enqueueJob => rfl
  | beginProbe i =>
      simp only [poolStep]
      split
      · split
        · simp
        · rfl
      · rfl
  | finishProbe i =>
      simp only [poolStep]
      split
      · split
        · simp
        · rfl
      · rfl
  | stopWorker i =>
      simp only [poolStep]
      split
      · split
        · simp
        · rfl
      · rfl

/-- Any process run preserves the worker count of the pool: neither
handler probes nor pool steps add workers. -/
theorem runSystem_pool_length (s : SystemState) (as : List SystemAction) :
    (runSystem s as).pool.workers.length = s.pool.workers.length := by
  induction as generalizing s with
  | nil => rfl
  | cons a rest ih =>
      calc (runSystem s (a :: rest)).pool.workers.length
          = (systemStep s a).pool.workers.length := ih (systemStep s a)
        _ = s.pool.workers.length := by
            cases a with
            | poolAct pa => exact poolStep_length s.pool pa
            | beginSingleProbe => rfl
            | finishSingleProbe => rfl

/-- The per-node check of checkInputs computes exactly the two
spec-side node predicates. -/
theorem inputFlags_eq (n : HtmlNode) :
    inputFlags n = (isPasswordInputNode n, isUsernameKeywordInputNode n) := by
  cases n with
  | nilNode => rfl
  | node t d a c nx =>
      simp only [inputFlags, isPasswordInputNode, isUsernameKeywordInputNode]
      by_cases h : t = GoNodeType.elementNode ∧ d = "input"
      · obtain ⟨h1, h2⟩ := h
        subst h1
        subst h2
        simp
      · rw [if_neg h]
        rcases not_and_or.mp h with h' | h'
        · simp [h']
        · simp [h']

/-- The sibling-chain accumulation equals the any-fold of the spec-side
predicates over the chain node list. -/
theorem inputFlagsChain_eq (n : HtmlNode) :
    inputFlagsChain n =
      ((chainNodes n).any isPasswordInputNode,
       (chainNodes n).any isUsernameKeywordInputNode) := by
  induction n with
  | nilNode => rfl
  | node t d a c nx ihc ihn =>
      simp only [inputFlagsChain, chainNodes, inputFlags_eq, ihc, ihn,
        List.any_cons, List.any_append, Bool.or_assoc]

/-- checkInputs computes the two existential subtree conditions of the
heuristic. -/
theorem checkInputs_eq (n : HtmlNode) :
    checkInputs n =
      ((subtreeNodes n).any isPasswordInputNode,
       (subtreeNodes n).any isUsernameKeywordInputNode) := by
  cases n with
  | nilNode => rfl
  | node t d a c nx =>
      simp only [checkInputs, subtreeNodes, inputFlags_eq, inputFlagsChain_eq,
        List.any_cons]

/-! ## Claim theorems -/

/-- C1: for every non-empty input link list (and whatever set of
statuses the collector observed, cancellation and timeout included),
the slice CheckLinks materializes has the length of the input, and the
i-th returned status carries the i-th input link's URL. -/
theorem checkLinks_length_and_order (links : List Link) (observed : List LinkStatus)
    (now : Nat) (hne : links ≠ []) :
    (checkLinksResult links observed now).length = links.length ∧
    ∀ i : Nat, ((checkLinksResult links observed now)[i]?).map (fun s => s.link.url) =
      (links[i]?).map Link.url := by
  have hemp : links.isEmpty = false := by
    cases links with
    | nil => exact absurd rfl hne
    | cons a l => rfl
  have hres : checkLinksResult links observed now =
      materializeResults links (collectResults observed) now := by
    unfold checkLinksResult
    rw [hemp]
    rfl
  rw [hres]
  constructor
  · exact List.length_map links _
  · intro i
    unfold materializeResults
    rw [List.getElem?_map]
    cases h : links[i]? with
    | none => rfl
    | some l =>
        simp only [Option.map_some']
        rw [materializeOne_url (collectResults observed) (collectResults_wf observed) now l]

/-- Witness for C1 at a concrete one-link batch with nothing
observed. -/
theorem checkLinks_length_and_order_witness :
    (checkLinksResult [⟨"https://example.com/a", "A", .internal⟩] [] 0).length =
      ([⟨"https://example.com/a", "A", .internal⟩] : List Link).length ∧
    ∀ i : Nat,
      ((checkLinksResult [⟨"https://example.com/a", "A", .internal⟩] [] 0)[i]?).map
        (fun s => s.link.url) =
      (([⟨"https://example.com/a", "A", .internal⟩] : List Link)[i]?).map Link.url :=
  checkLinks_length_and_order [⟨"https://example.com/a", "A", .internal⟩] [] 0
    (by simp)

/-- C2 (code bug): close(resultQueue) occurs only in Stop, so under any
stop-free schedule the collector's range loop cannot finish and
resultWG.Wait() in CheckLinks blocks; the batch does not terminate
within the 30-second batch deadline (or at all) unless the whole
component is shut down concurrently. -/
theorem checkLinks_blocks_without_stop (es : List CheckerEvent)
    (h : ∀ e ∈ es, e ≠ CheckerEvent.stopChecker) :
    collectorCanFinish (runEvents newCheckerChans es) = false := by
  unfold collectorCanFinish
  rw [runEvents_resultClosed_of_no_stop newCheckerChans es h]
  rfl

/-- Witness for C2 on a schedule that starts the pool, submits a job
and lets a worker emit its result, without stopping the component. -/
theorem checkLinks_blocks_without_stop_witness :
    collectorCanFinish
      (runEvents newCheckerChans [.startPool, .submitJob, .workerResult]) = false :=
  checkLinks_blocks_without_stop [.startPool, .submitJob, .workerResult] (by decide)

/-- C3: CheckLink maps a transport error to
accessible=false/status 0/error text, a code in the interval from 200
to 399 to accessible=true with empty error, and a code of 400 or above
to accessible=false with error "HTTP code". -/
theorem checkLink_spec (l : Link) (now : Nat) :
    (∀ e : String, checkLink l (.error e) now =
      { link := l, accessible := false, statusCode := 0, error := e, checkedAt := now }) ∧
    (∀ resp : HTTPResponse, 200 ≤ resp.statusCode → resp.statusCode < 400 →
      checkLink l (.ok resp) now =
        { link := l, accessible := true, statusCode := resp.statusCode,
          error := "", checkedAt := now }) ∧
    (∀ resp : HTTPResponse, 400 ≤ resp.statusCode →
      checkLink l (.ok resp) now =
        { link := l, accessible := false, statusCode := resp.statusCode,
          error := "HTTP " ++ toString resp.statusCode, checkedAt := now }) := by
  refine ⟨fun e => rfl, fun resp h1 h2 => ?_, fun resp h4 => ?_⟩
  · have hacc : decide (200 ≤ resp.statusCode ∧ resp.statusCode < 400) = true := by
      rw [decide_eq_true_eq]
      exact ⟨h1, h2⟩
    simp [checkLink, hacc]
  · have hacc : decide (200 ≤ resp.statusCode ∧ resp.statusCode < 400) = false := by
      rw [decide_eq_false_iff_not]
      intro hc
      omega
    simp [checkLink, hacc]

/-- Witness for C3 at a transport error, a 200 response and a 404
response. -/
theorem checkLink_spec_witness :
    checkLink ⟨"https://example.com", "E", .external⟩ (.error "connection refused") 0 =
      { link := ⟨"https://example.com", "E", .external⟩, accessible := false,
        statusCode := 0, error := "connection refused", checkedAt := 0 } ∧
    checkLink ⟨"https://example.com", "E", .external⟩ (.ok ⟨200⟩) 0 =
      { link := ⟨"https://example.com", "E", .external⟩, accessible := true,
        statusCode := 200, error := "", checkedAt := 0 } ∧
    checkLink ⟨"https://example.com", "E", .external⟩ (.ok ⟨404⟩) 0 =
      { link := ⟨"https://example.com", "E", .external⟩, accessible := false,
        statusCode := 404, error := "HTTP " ++ toString (404 : Int), checkedAt := 0 } :=
  ⟨(checkLink_spec ⟨"https://example.com", "E", .external⟩ 0).1 "connection refused",
   (checkLink_spec ⟨"https://example.com", "E", .external⟩ 0).2.1 ⟨200⟩ (by decide) (by decide),
   (checkLink_spec ⟨"https://example.com", "E", .external⟩ 0).2.2 ⟨404⟩ (by decide)⟩

/-- C4 counterexample: the synthesized error strings of the code are
"Not checked" (materialization, lines 155-161) and "Check timeout"
(submission path, lines 127-133), neither of which is the string
"check timeout or not processed" the claim states. -/
theorem synthesized_error_counterexample :
    (checkLinksResult [⟨"https://example.com/a", "A", .internal⟩] [] 0).map
      (fun s => s.error) = ["Not checked"] ∧
    (submitTimeoutStatus ⟨"https://example.com/a", "A", .internal⟩ 0).error =
      "Check timeout" ∧
    ¬ ("Not checked" = "check timeout or not processed") ∧
    ¬ ("Check timeout" = "check timeout or not processed") :=
  ⟨rfl, rfl, by decide, by decide⟩

/-- C4 amended: a link whose probe result was not observed receives the
synthesized record with accessible=false, status_code=0 and error
"Not checked"; the submission-cancellation path synthesizes
accessible=false, status_code=0 and error "Check timeout". -/
theorem synthesized_status_amended (links : List Link) (observed : List LinkStatus)
    (now i : Nat) (l : Link) (hl : links[i]? = some l)
    (habsent : collectResults observed l.url = none) :
    (checkLinksResult links observed now)[i]? = some (notCheckedStatus l now) ∧
    (notCheckedStatus l now).accessible = false ∧
    (notCheckedStatus l now).statusCode = 0 ∧
    (notCheckedStatus l now).error = "Not checked" ∧
    (submitTimeoutStatus l now).accessible = false ∧
    (submitTimeoutStatus l now).statusCode = 0 ∧
    (submitTimeoutStatus l now).error = "Check timeout" := by
  have hne : links ≠ [] := by
    intro hnil
    rw [hnil] at hl
    cases hl
  have hemp : links.isEmpty = false := by
    cases links with
    | nil => exact absurd rfl hne
    | cons a rest => rfl
  have hres : checkLinksResult links observed now =
      materializeResults links (collectResults observed) now := by
    unfold checkLinksResult
    rw [hemp]
    rfl
  refine ⟨?_, rfl, rfl, rfl, rfl, rfl, rfl⟩
  rw [hres]
  unfold materializeResults
  rw [List.getElem?_map, hl]
  simp only [Option.map_some']
  unfold materializeOne
  rw [habsent]

/-- Witness for C4 at a concrete one-link batch with an empty collector
map. -/
theorem synthesized_status_amended_witness :
    (checkLinksResult [⟨"https://example.com/a", "A", .internal⟩] [] 0)[0]? =
      some (notCheckedStatus ⟨"https://example.com/a", "A", .internal⟩ 0) ∧
    (notCheckedStatus ⟨"https://example.com/a", "A", .internal⟩ 0).accessible = false ∧
    (notCheckedStatus ⟨"https://example.com/a", "A", .internal⟩ 0).statusCode = 0 ∧
    (notCheckedStatus ⟨"https://example.com/a", "A", .internal⟩ 0).error = "Not checked" ∧
    (submitTimeoutStatus ⟨"https://example.com/a", "A", .internal⟩ 0).accessible = false ∧
    (submitTimeoutStatus ⟨"https://example.com/a", "A", .internal⟩ 0).statusCode = 0 ∧
    (submitTimeoutStatus ⟨"https://example.com/a", "A", .internal⟩ 0).error =
      "Check timeout" :=
  synthesized_status_amended [⟨"https://example.com/a", "A", .internal⟩] [] 0 0
    ⟨"https://example.com/a", "A", .internal⟩ rfl rfl

/-- C5 counterexample: with the default pool size of 10 and a batch
probe in flight, ten concurrent CheckSingleLink requests - each inside
its direct CheckLink call on the handler goroutine, outside the pool -
push the process-wide in-flight probe count to 11, above W. -/
theorem pool_inflight_counterexample :
    processWideInFlight (runSystem (startSystem defaultWorkerPoolSize)
      ([.poolAct .enqueueJob, .poolAct (.beginProbe 0)] ++
        List.replicate 10 .beginSingleProbe)) = 11 ∧
    ¬ (11 ≤ defaultWorkerPoolSize) := by
  constructor
  · decide
  · decide

/-- C5 amended: at every instant of every schedule, the probes in
flight through the batch worker pool number at most the pool size W
(default 10) - batch probes run only on the W pool workers, one at a
time each - even while single-link handler probes run concurrently;
the bound is not process-wide, as CheckSingleLink probes bypass the
pool. -/
theorem pool_inflight_bounded_amended (w : Nat) (as : List SystemAction) :
    inFlight (runSystem (startSystem w) as).pool ≤ w ∧
    defaultWorkerPoolSize = 10 := by
  constructor
  · calc inFlight (runSystem (startSystem w) as).pool
        ≤ (runSystem (startSystem w) as).pool.workers.length :=
          List.countP_le_length _
      _ = (startPool w).workers.length := runSystem_pool_length (startSystem w) as
      _ = w := List.length_replicate w WorkerPhase.idle
  · rfl

/-- C6 counterexample: a form whose action is "/submit" (no login
keyword) containing a password input and no username-keyword input is
flagged by the code, but not by the claim's two-sided heuristic: any
non-empty action satisfies the code's final condition. -/
theorem isLoginForm_counterexample :
    isLoginForm (.node .elementNode "form" [("action", "/submit")]
      (.node .elementNode "input" [("type", "password")] .nilNode .nilNode)
      .nilNode) = true ∧
    claimLoginForm (.node .elementNode "form" [("action", "/submit")]
      (.node .elementNode "input" [("type", "password")] .nilNode .nilNode)
      .nilNode) = false := by
  constructor <;> decide

/-- C6 amended: a form is flagged iff its lowercased action contains a
login keyword, or it contains a password input and (a username-keyword
input or a non-empty action attribute). -/
theorem isLoginForm_amended (n : HtmlNode) : isLoginForm n = amendedLoginForm n := by
  unfold isLoginForm amendedLoginForm actionHasLoginKeyword
  by_cases hk :
      (loginKeywords.any fun k => containsSub k.data (formActionOf n).data) = true
  · simp [hk]
  · rw [Bool.not_eq_true] at hk
    simp [hk, checkInputs_eq]

/-- C7 counterexample: hosts differing only in letter case are
classified external by the code although they are case-insensitively
equal, contradicting the claim's case-insensitive comparison. -/
theorem determineLinkType_counterexample :
    determineLinkType ⟨"EXAMPLE.COM"⟩ ⟨"example.com"⟩ = .external ∧
    claimInternal ⟨"EXAMPLE.COM"⟩ ⟨"example.com"⟩ = true := by
  constructor <;> decide

/-- C7 amended: a link is classified internal iff its resolved host is
empty or EXACTLY equal (case-sensitive string comparison) to the base
host; otherwise external. -/
theorem determineLinkType_amended (l b : GoURL) :
    determineLinkType l b = .internal ↔ (l.host = "" ∨ l.host = b.host) := by
  unfold determineLinkType
  split_ifs with h
  · simp [h]
  · simp [h]

/-- C8 counterexample: a document without a DOCTYPE and a document with
an unrecognized DOCTYPE both yield the label
"Unknown/No DOCTYPE Test"; the labels the claim states,
"Unknown/No DOCTYPE" and "Unknown DOCTYPE", are produced in neither
case. -/
theorem detectHTMLVersion_counterexample :
    detectHTMLVersion "<html></html>" = "Unknown/No DOCTYPE Test" ∧
    detectHTMLVersion "<!DOCTYPE foo><html></html>" = "Unknown/No DOCTYPE Test" ∧
    ¬ ("Unknown/No DOCTYPE Test" = "Unknown/No DOCTYPE") ∧
    ¬ ("Unknown/No DOCTYPE Test" = "Unknown DOCTYPE") := by
  refine ⟨by decide, by decide, by decide, by decide⟩

/-- C8 amended: both the unrecognized-DOCTYPE case and the no-DOCTYPE
case fall through to the label "Unknown/No DOCTYPE Test" (content that
does not resemble HTML yields "Unknown (Not HTML)"); the function never
returns "Unknown DOCTYPE" nor "Unknown/No DOCTYPE". -/
theorem detectHTMLVersion_amended (s : String) :
    detectHTMLVersion s ≠ "Unknown DOCTYPE" ∧
    detectHTMLVersion s ≠ "Unknown/No DOCTYPE" := by
  unfold detectHTMLVersion
  split_ifs <;> exact ⟨by decide, by decide⟩

/-- C9 counterexample: a root fetch completing with HTTP 404 makes
AnalyzeURL return the error "HTTP error: status code 404" and no
report, but the handler maps that message (its contains helper is a
prefix test matching "HTTP error") to a 400 reply, not to the 500 the
claim states - as the handler's own test for the HTTP-error path
expects. -/
theorem fetch_http_error_counterexample :
    analyzeURLOnFetch (.ok ⟨404⟩) = .failure "HTTP error: status code 404" ∧
    (analyzeFailureReply "HTTP error: status code 404").status = 400 ∧
    ¬ ((analyzeFailureReply "HTTP error: status code 404").status = 500) := by
  refine ⟨by decide, by decide, by decide⟩

/-- C9 amended: a root fetch completing with status 400 or above is
terminal - AnalyzeURL returns the error "HTTP error: status code
<code>" and no report - and the caller receives a 400 reply carrying
that message. -/
theorem fetch_http_error_amended (resp : HTTPResponse) (h : 400 ≤ resp.statusCode) :
    analyzeURLOnFetch (.ok resp) =
      .failure ("HTTP error: status code " ++ toString resp.statusCode) ∧
    analyzeFailureReply ("HTTP error: status code " ++ toString resp.statusCode) =
      ⟨"HTTP error: status code " ++ toString resp.statusCode, 400⟩ := by
  have hfetch : fetchWebPage (.ok resp) =
      .error ("HTTP error: status code " ++ toString resp.statusCode) := by
    simp only [fetchWebPage]
    rw [if_pos h]
  constructor
  · simp only [analyzeURLOnFetch, hfetch]
  · generalize toString resp.statusCode = t
    cases t with
    | mk td =>
        unfold analyzeFailureReply
        have hne : ¬ ((("HTTP error: status code " : String) ++ ⟨td⟩) =
            "context deadline exceeded") := by
          intro he
          have hd : ("HTTP error: status code ").data ++ td =
              ("context deadline exceeded").data := congrArg String.data he
          simp at hd
        rw [if_neg hne]
        have hc : goContains (("HTTP error: status code " : String) ++ ⟨td⟩)
            "HTTP error" = true := by
          unfold goContains
          have hdata : (("HTTP error: status code " : String) ++ ⟨td⟩).data =
              ("HTTP error: status code ").data ++ td := String.data_append _ _
          rw [hdata]
          have hlen : ("HTTP error").data.length ≤
              ("HTTP error: status code ").data.length := by decide
          rw [List.take_append_of_le_length hlen]
          simp only [Bool.and_eq_true, decide_eq_true_eq]
          constructor
          · simp only [List.length_append]
            refine Nat.le_trans ?_
              (Nat.le_add_right ("HTTP error: status code ").data.length td.length)
            decide
          · decide
        rw [if_pos hc]

/-- Witness for C9 at a 404 root response. -/
theorem fetch_http_error_amended_witness :
    analyzeURLOnFetch (.ok ⟨404⟩) =
      .failure ("HTTP error: status code " ++ toString (404 : Int)) ∧
    analyzeFailureReply ("HTTP error: status code " ++ toString (404 : Int)) =
      ⟨"HTTP error: status code " ++ toString (404 : Int), 400⟩ :=
  fetch_http_error_amended ⟨404⟩ (by decide)

/-- C10 counterexample: a first Stop on a fresh checker succeeds
closing all three channels, but a second Stop aborts with Go's runtime
error "close of closed channel" instead of being a no-op, and a second
Start spawns ten more workers instead of being a no-op: the struct has
no started flag and no lifecycle lock. -/
theorem stop_twice_counterexample :
    goStop newCheckerLifecycle = .ok ⟨⟨true, true, true⟩, 0⟩ ∧
    goStop ⟨⟨true, true, true⟩, 0⟩ = .error "close of closed channel" ∧
    (goStart 10 (goStart 10 newCheckerLifecycle)).workersSpawned = 20 ∧
    ¬ ((20 : Nat) = 10) := by
  refine ⟨rfl, rfl, rfl, by decide⟩

/-- C10 amended: the checker tracks no started flag and takes no lock;
after any successful Stop, a second Stop aborts with "close of closed
channel", and two Starts with pool size w spawn 2*w workers rather
than being idempotent. -/
theorem lifecycle_amended (w : Nat) (s1 : LifecycleState)
    (h : goStop newCheckerLifecycle = .ok s1) :
    goStop s1 = .error "close of closed channel" ∧
    (goStart w (goStart w newCheckerLifecycle)).workersSpawned = 2 * w := by
  have hs1 : s1 = ⟨⟨true, true, true⟩, 0⟩ := by
    have : goStop newCheckerLifecycle = .ok (⟨⟨true, true, true⟩, 0⟩ : LifecycleState) := rfl
    rw [this] at h
    cases h
    rfl
  subst hs1
  constructor
  · rfl
  · simp only [goStart, newCheckerLifecycle]
    omega

/-- Witness for C10 at the state the first Stop produces and the
default pool size. -/
theorem lifecycle_amended_witness :
    goStop ⟨⟨true, true, true⟩, 0⟩ = .error "close of closed channel" ∧
    (goStart 10 (goStart 10 newCheckerLifecycle)).workersSpawned = 2 * 10 :=
  lifecycle_amended 10 ⟨⟨true, true, true⟩, 0⟩ rfl

end WebpageAnalyzer
